import Mathlib

/-
Verification of the rvi_sota_client repository against its natural-language
specification. The Rust sources are shallowly embedded: pure functions become
Lean functions, effectful calls (HTTP, filesystem, subprocesses, crypto) are
supplied through explicit environment records of oracles, and Rust panics and
process exits are made visible through explicit outcome constructors.
-/

namespace RviSota

/-- Outcome of running a piece of Rust code that may panic (or diverge via
`panic!`, `expect`, `unreachable!` or an out-of-bounds index) instead of
returning a value. -/
inductive Outcome (α : Type) where
| panics (msg : String)
| returns (val : α)
deriving DecidableEq, Repr

/-- True exactly on the `panics` constructor. -/
def Outcome.panicked {α : Type} : Outcome α → Bool
| .panics _ => true
| .returns _ => false

/-- Association-list lookup, modelling `HashMap::get`. -/
def assocLookup {κ β : Type} [DecidableEq κ] (k : κ) : List (κ × β) → Option β
| [] => none
| (a, b) :: rest => if a = k then some b else assocLookup k rest

/-- Association-list insert-or-replace, modelling `HashMap::insert`. -/
def assocUpdate {κ β : Type} [DecidableEq κ] (k : κ) (v : β) : List (κ × β) → List (κ × β)
| [] => [(k, v)]
| (a, b) :: rest => if a = k then (k, v) :: rest else (a, b) :: assocUpdate k v rest

/-- Association-list removal, modelling `HashMap::remove`. -/
def assocRemove {κ β : Type} [DecidableEq κ] (k : κ) : List (κ × β) → List (κ × β)
| [] => []
| (a, b) :: rest => if a = k then rest else (a, b) :: assocRemove k rest

/-- Removal of adjacent duplicates, modelling `Vec::dedup`. -/
def dedupConsec : List Nat → List Nat
| [] => []
| [x] => [x]
| x :: y :: rest => if x = y then dedupConsec (y :: rest) else x :: dedupConsec (y :: rest)

/-- Set-style insertion into a duplicate-free list, modelling insertion of a
chunk index into the `chunks_written` set of a transfer. -/
def insertSet (x : Nat) (xs : List Nat) : List Nat :=
if x ∈ xs then xs else x :: xs

/-- Writing `bytes` into a byte sequence `file` at offset `off`, zero-padding
when the seek position lies beyond the current end of the file. Models a
`seek` to `off` followed by a `write` of `bytes`. -/
def overlay (file : List Nat) (off : Nat) (bytes : List Nat) : List Nat :=
(file ++ List.replicate (off - file.length) 0).take off ++ bytes ++ file.drop (off + bytes.length)

/-- Value of a character in the standard base64 alphabet. -/
def b64Val (c : Char) : Option Nat :=
if 65 ≤ c.toNat ∧ c.toNat ≤ 90 then some (c.toNat - 65)
else if 97 ≤ c.toNat ∧ c.toNat ≤ 122 then some (c.toNat - 71)
else if 48 ≤ c.toNat ∧ c.toNat ≤ 57 then some (c.toNat + 4)
else if c = '+' then some 62
else if c = '/' then some 63
else none

/-- Standard base64 decoding of groups of four characters, with `=` padding
allowed only at the end of the input; models `base64::decode`. -/
def b64Groups : List Char → Option (List Nat)
| [] => some []
| c1 :: c2 :: c3 :: c4 :: rest =>
  match b64Val c1, b64Val c2 with
  | some v1, some v2 =>
    if c3 = '=' then
      if c4 = '=' ∧ rest = [] then some [v1 * 4 + v2 / 16] else none
    else
      match b64Val c3 with
      | some v3 =>
        if c4 = '=' then
          if rest = [] then some [v1 * 4 + v2 / 16, (v2 % 16) * 16 + v3 / 4] else none
        else
          match b64Val c4 with
          | some v4 =>
            (b64Groups rest).map
              (fun tail => (v1 * 4 + v2 / 16) :: ((v2 % 16) * 16 + v3 / 4) :: ((v3 % 4) * 64 + v4) :: tail)
          | none => none
      | none => none
  | _, _ => none
| _ => none

/-- Base64 decoding of a string; fails on characters outside the alphabet and
on inputs whose length is not a multiple of four. -/
def b64Decode (s : String) : Option (List Nat) := b64Groups s.data

/-- Client id and secret, from sota-client/src/datatype/auth.rs. -/
structure ClientCredentials where
  client_id : String
  client_secret : String
deriving DecidableEq, Repr

/-- Access token data returned after a successful authentication, from
sota-client/src/datatype/auth.rs. -/
structure AccessToken where
  access_token : String
  token_type : String
  expires_in : Int
  scope : String
deriving DecidableEq, Repr

/-- The authentication types, from sota-client/src/datatype/auth.rs. -/
inductive Auth where
| none
| certificate
| credentials (creds : ClientCredentials)
| token (tok : AccessToken)
deriving DecidableEq, Repr

/-- The Display implementation for Auth (sota-client/src/datatype/auth.rs,
lines 14 to 23): each variant prints a constant string. -/
def Auth.display : Auth → String
| .none => "Auth::None"
| .token _ => "Auth::Token"
| .certificate => "Auth::Certificate"
| .credentials _ => "Auth::Credentials"

/-- The Debug implementation for Auth (sota-client/src/datatype/auth.rs,
lines 25 to 29) delegates to Display. -/
def Auth.debugFmt (a : Auth) : String := a.display

/-- The system-wide error enumeration. Modelled on src/src/datatype/error.rs,
restricted to the variants the embedded code constructs or matches on; error
payloads carried by foreign library types are modelled as strings. -/
inductive ErrM where
| client (s : String)
| config (s : String)
| httpAuth (resp : String)
| parse (s : String)
| rvi (s : String)
| systemInfo (s : String)
| uptaneExpired
| uptaneInvalidRole
| uptaneMissingField (field : String)
| uptaneMissingSignatures
| uptaneOldVersion
| uptaneRoleThreshold
| uptaneUnknownRole
| uptaneVerifySignatures
deriving DecidableEq, Repr

/-- The Display form of an error, as used by `err.to_string()`. The exact
wording is unimportant to every claim; only which variant produced it is. -/
def ErrM.describe : ErrM → String
| .client s => "Client error: " ++ s
| .config s => "Config error: " ++ s
| .httpAuth resp => "HTTP authorization error: " ++ resp
| .parse s => "Parse error: " ++ s
| .rvi s => "RVI error: " ++ s
| .systemInfo s => "System info error: " ++ s
| .uptaneExpired => "Uptane: expired"
| .uptaneInvalidRole => "Uptane: invalid role"
| .uptaneMissingField f => "Uptane: metadata missing field " ++ f
| .uptaneMissingSignatures => "Uptane: missing signatures"
| .uptaneOldVersion => "Uptane: old version"
| .uptaneRoleThreshold => "Uptane: role threshold not met"
| .uptaneUnknownRole => "Uptane: unknown role"
| .uptaneVerifySignatures => "Uptane: invalid signature"

/-- True exactly on the `httpAuth` variant. -/
def ErrM.isHttpAuth : ErrM → Bool
| .httpAuth _ => true
| _ => false

/-- A package name and version, from the datatype module. -/
structure Package where
  name : String
  version : String
deriving DecidableEq, Repr

/-- Old-crate install outcome codes (datatype `UpdateResultCode`), restricted
to the codes the embedded code mentions; per the spec, `is_success` holds for
OK and ALREADY_PROCESSED. -/
inductive InstallCode where
| ok
| alreadyProcessed
| installFailed
| generalError
deriving DecidableEq, Repr

/-- Success codes are OK and ALREADY_PROCESSED. -/
def InstallCode.is_success : InstallCode → Bool
| .ok => true
| .alreadyProcessed => true
| _ => false

/-- An installation result: the update id, result code and log output.
Modelled from its uses in sota-client/src/interpreter.rs
(`InstallResult::new(id, code, log)` and `result.result_code.is_success()`). -/
structure InstallResult where
  id : String
  result_code : InstallCode
  log : String
deriving DecidableEq, Repr

/-- An install report wrapping an installation result. Modelled from the spec:
the sota-client datatype module carrying `InstallResult::into_report` is not in
the sources; the report is the device-facing wrapper of the result. -/
structure InstallReport where
  result : InstallResult
deriving DecidableEq, Repr

/-- Conversion of a result into a report (`InstallResult::into_report`).
Modelled from the spec: the implementation is not in the sources. -/
def InstallResult.into_report (r : InstallResult) : InstallReport := ⟨r⟩

/-- Terminal data of a completed download, from the datatype module as used in
sota-client/src/rvi/parameters.rs and interpreter.rs. Uuids are modelled by
their display strings throughout. -/
structure DownloadComplete where
  update_id : String
  update_image : String
  signature : String
deriving DecidableEq, Repr

/-- Status of an update request. Modelled from the spec: the datatype module is
not in the sources; the spec distinguishes Pending, InFlight and other
statuses, the latter modelled by the remaining constructors. -/
inductive RequestStatus where
| pending
| inFlight
| canceled
| failed
| finished
deriving DecidableEq, Repr

/-- An update request from the SOTA backend, as used by
sota-client/src/interpreter.rs (fields requestId, status, packageId,
installPos). -/
structure UpdateRequest where
  requestId : String
  status : RequestStatus
  packageId : Package
  installPos : Int
deriving DecidableEq, Repr

/-- Update announcement carried by an RVI Notify message, as used in
sota-client/src/rvi/parameters.rs (fields update_id and size). -/
structure UpdateAvailable where
  update_id : String
  size : Nat
deriving DecidableEq, Repr

/-- TUF signature methods, from sota-client/src/datatype/tuf.rs. -/
inductive SigType where
| rsaSsaPss
| ed25519
deriving DecidableEq, Repr

/-- A single TUF signature, from sota-client/src/datatype/tuf.rs. -/
structure SignatureM where
  keyid : String
  method : SigType
  sig : String
deriving DecidableEq, Repr

/-- Stand-in for an in-memory `json::Value`; the embedding never inspects the
structure of opaque JSON values, so a string handle suffices. -/
abbrev JsonM := String

/-- A signed TUF metadata container, from sota-client/src/datatype/tuf.rs. -/
structure TufSignedM where
  signatures : List SignatureM
  signed : JsonM
deriving DecidableEq, Repr

/-- TUF target custom data as used by src/src/uptane.rs: its test compares
`ecuIdentifier` directly against a string, so in that crate the field is
mandatory. -/
structure TufCustom where
  ecuIdentifier : String
  uri : Option String
deriving DecidableEq, Repr

/-- TUF target metadata: length, a hash-algorithm map and optional custom
data (sota-client/src/datatype/tuf.rs, used by src/src/uptane.rs). -/
structure TufMeta where
  length : Nat
  hashes : List (String × String)
  custom : Option TufCustom
deriving DecidableEq, Repr

/-- TUF role names, from sota-client/src/datatype/tuf.rs. -/
inductive RoleName where
| root
| targets
| snapshot
| timestamp
deriving DecidableEq, Repr

/-- Lowercase display of a role name (sota-client/src/datatype/tuf.rs). -/
def RoleName.lower : RoleName → String
| .root => "root"
| .targets => "targets"
| .snapshot => "snapshot"
| .timestamp => "timestamp"

/-- TUF key types, from sota-client/src/datatype/tuf.rs. -/
inductive KeyType where
| ed25519
| rsa
deriving DecidableEq, Repr

/-- A TUF public key: its type and public key value, from
sota-client/src/datatype/tuf.rs (`Key` and `KeyValue`). -/
structure Key where
  keytype : KeyType
  public : String
deriving DecidableEq, Repr

/-- Role keyids, threshold and locally-tracked version, from
sota-client/src/datatype/tuf.rs (`RoleMeta`). -/
structure RoleMeta where
  keyids : List String
  threshold : Nat
  version : Nat
deriving DecidableEq, Repr

/-- Parsed role metadata, from sota-client/src/datatype/tuf.rs (`RoleData`);
`expires` is a UTC timestamp modelled as an integer. -/
structure RoleData where
  _type : RoleName
  version : Nat
  expires : Int
  keys : Option (List (String × Key))
  roles : Option (List (RoleName × RoleMeta))
  targets : Option (List (String × TufMeta))
  meta : Option (List (String × TufMeta))
deriving DecidableEq, Repr

/-- An OSTree package install descriptor. Modelled from the spec: the datatype
source is absent; `extract_packages` emits `{ecu, refname, commit, treehub}`
descriptors and `OstreePackage::new` receives those fields positionally plus a
description. -/
structure OstreePackage where
  ecu : String
  refname : String
  commit : String
  description : String
  treehub : String
deriving DecidableEq, Repr

/-- Constructor storing its arguments (`OstreePackage::new`). Modelled from the
spec: the implementation is not in the sources. -/
def OstreePackage.new (ecu refname commit description treehub : String) : OstreePackage :=
⟨ecu, refname, commit, description, treehub⟩

/-- Extraction of OSTree install descriptors from a targets map, embedded from
src/src/uptane.rs lines 170 to 180. The map is iterated as a list; an entry
without a sha256 hash is skipped (only logged), while an entry with a sha256
hash but no custom field hits `expect("no custom field")` and panics. -/
def extract_packages : List (String × TufMeta) → String → Outcome (List OstreePackage)
| [], _ => .returns []
| (refname, meta) :: rest, treehub =>
  match assocLookup ("sha256") meta.hashes with
  | Option.none => extract_packages rest treehub
  | some commit =>
    match meta.custom with
    | Option.none => .panics ("no custom field")
    | some custom =>
      match extract_packages rest treehub with
      | .panics m => .panics m
      | .returns pkgs =>
        .returns (OstreePackage.new custom.ecuIdentifier refname commit ("") treehub :: pkgs)

/-- The available package managers, from
src/src/package_manager/package_manager.rs. -/
inductive PackageManager where
| off
| deb
| rpm
| ostree
| uptane
| test (filename : String) (succeeds : Bool)
deriving DecidableEq, Repr

/-- Old-crate install outcome: a result code paired with stdout/stderr output
(src/src/package_manager/package_manager.rs, `InstallOutcome`). -/
abbrev InstallOutcomeO := InstallCode × String

/-- Results of the concrete package-manager backends (deb, rpm, ostree, test),
whose sources shell out to system binaries; each backend call is an oracle. -/
structure PkgEnv where
  debInstalledPackages : Except ErrM (List Package)
  rpmInstalledPackages : Except ErrM (List Package)
  ostreeInstalledPackages : Except ErrM (List Package)
  testInstalledPackages : String → Except ErrM (List Package)
  debInstall : String → Except InstallOutcomeO InstallOutcomeO
  rpmInstall : String → Except InstallOutcomeO InstallOutcomeO
  ostreeInstall : String → Option AccessToken → Except InstallOutcomeO InstallOutcomeO
  testInstall : String → String → Bool → Except InstallOutcomeO InstallOutcomeO

/-- Listing installed packages, embedded from
src/src/package_manager/package_manager.rs lines 27 to 38: the Off variant
panics with "no package manager"; Uptane shares the ostree backend. -/
def PackageManager.installed_packages (env : PkgEnv) :
    PackageManager → Outcome (Except ErrM (List Package))
| .off => .panics ("no package manager")
| .deb => .returns env.debInstalledPackages
| .rpm => .returns env.rpmInstalledPackages
| .ostree => .returns env.ostreeInstalledPackages
| .uptane => .returns env.ostreeInstalledPackages
| .test filename _ => .returns (env.testInstalledPackages filename)

/-- Installing a package, embedded from
src/src/package_manager/package_manager.rs lines 42 to 55: the Off variant
panics with "no package manager". -/
def PackageManager.install_package (env : PkgEnv) (pm : PackageManager)
    (path : String) (token : Option AccessToken) :
    Outcome (Except InstallOutcomeO InstallOutcomeO) :=
match pm with
| .off => .panics ("no package manager")
| .deb => .returns (env.debInstall path)
| .rpm => .returns (env.rpmInstall path)
| .ostree => .returns (env.ostreeInstall path token)
| .uptane => .returns (env.ostreeInstall path token)
| .test filename succeeds => .returns (env.testInstall filename path succeeds)

/-- Whether a package is installed, embedded from
src/src/package_manager/package_manager.rs lines 58 to 61: delegates to
`installed_packages`, treating an error as false (after logging). -/
def PackageManager.is_installed (env : PkgEnv) (pm : PackageManager) (pkg : Package) :
    Outcome Bool :=
match pm.installed_packages env with
| .panics m => .panics m
| .returns (.ok pkgs) => .returns (pkgs.contains pkg)
| .returns (.error _) => .returns false

/-- The package-manager file extension, embedded from
src/src/package_manager/package_manager.rs lines 64 to 73: the Off variant
panics with "no package manager". -/
def PackageManager.extension : PackageManager → Outcome String
| .off => .panics ("no package manager")
| .deb => .returns ("deb")
| .rpm => .returns ("rpm")
| .ostree => .returns ("ostree")
| .uptane => .returns ("uptane")
| .test filename _ => .returns filename

/-- Verified role metadata, as constructed by `verify_data` in
src/src/uptane.rs lines 103 to 114 (fields role, data, old_ver, new_ver). -/
structure VerifiedM where
  role : RoleName
  data : RoleData
  old_ver : Nat
  new_ver : Nat
deriving DecidableEq, Repr

/-- Whether the verified metadata is newer than the previously stored version
(`Verified::is_new`, defined by the spec as new_ver greater than old_ver). -/
def VerifiedM.is_new (v : VerifiedM) : Bool := v.old_ver < v.new_ver

/-- The events of the two interpreter loops. Modelled from the constructors
used in sota-client/src/interpreter.rs and sota-client/src/rvi; the datatype
source itself is not among the files. -/
inductive Event where
| authenticated
| downloadComplete (dl : DownloadComplete)
| downloadFailed (id : String) (reason : String)
| downloadingUpdate (id : String)
| error (msg : String)
| foundInstalledPackages (pkgs : List Package)
| foundSystemInfo (info : String)
| installComplete (result : InstallResult)
| installFailed (result : InstallResult)
| installingUpdate (id : String)
| installedPackagesNeeded
| installedPackagesSent
| installedSoftwareNeeded
| installedSoftwareSent
| installReportSent (report : InstallReport)
| noUpdateRequests
| notAuthenticated
| systemInfoNeeded
| systemInfoSent
| updateAvailable (ua : UpdateAvailable)
| updatesReceived (requests : List UpdateRequest)
| uptaneInstallComplete (manifests : List (String × TufSignedM))
| uptaneInstallFailed (manifests : List (String × TufSignedM))
| uptaneManifestNeeded
| uptaneManifestSent
| uptaneNoUpdates
| uptaneTargetsUpdated (targets : VerifiedM)
deriving DecidableEq, Repr

/-- The commands of the command loop. Modelled from the constructors used in
sota-client/src/interpreter.rs; the datatype source itself is not among the
files. Installed software payloads are opaque to the interpreter and modelled
as strings. -/
inductive Command where
| authenticate (auth : Auth)
| getUpdateRequests
| listInstalledPackages
| listSystemInfo
| sendInstalledPackages (pkgs : List Package)
| sendInstalledSoftware (sw : String)
| sendInstallReport (report : InstallReport)
| sendSystemInfo
| shutdown
| startDownload (id : String)
| startInstall (id : String)
| uptaneSendManifest (manifests : Option (List (String × TufSignedM)))
| uptaneStartInstall (targets : VerifiedM)
deriving DecidableEq, Repr

/-- The available package managers of the sota-client crate (`PacMan`).
Modelled from the spec and its uses in sota-client/src/interpreter.rs: the
pacman module itself is not among the files. -/
inductive PacMan where
| off
| deb
| rpm
| ostree
| uptane
| test (filename : String) (succeeds : Bool)
deriving DecidableEq, Repr

/-- Oracles for the sota-client package-manager calls made by the
EventInterpreter: the pacman module sources are not among the files, so
`installed_packages` and `is_installed` results are supplied externally. -/
structure EvEnv where
  pacmanInstalled : PacMan → Except ErrM (List Package)
  isInstalled : PacMan → Package → Bool

/-- The mutable fields of the EventInterpreter
(sota-client/src/interpreter.rs lines 31 to 38). -/
structure EventInterpreterState where
  initial : Bool
  auth : Auth
  pacman : PacMan
  auto_dl : Bool
  sysinfo : Option String
deriving Repr

/-- Commands queued for one update request inside the UpdatesReceived arm,
embedded from sota-client/src/interpreter.rs lines 86 to 98: Pending is only
acted on when auto download is enabled; InFlight is dropped when the package
manager is Off, reported as OK when the package is already installed, and
downloaded otherwise; all other statuses are dropped. -/
def updateRequestCommands (env : EvEnv) (st : EventInterpreterState)
    (request : UpdateRequest) : List Command :=
match request.status with
| .pending =>
  if st.auto_dl then [Command.startDownload request.requestId] else []
| .inFlight =>
  if st.pacman = PacMan.off then []
  else if env.isInstalled st.pacman request.packageId then
    [Command.sendInstallReport (InstallResult.into_report ⟨request.requestId, InstallCode.ok, "<generated>"⟩)]
  else [Command.startDownload request.requestId]
| _ => []

/-- One step of the EventInterpreter, embedded from
sota-client/src/interpreter.rs lines 41 to 115. The returned triple is the
updated state, the commands queued on the command channel in order, and the
events re-injected on the interpreter's own loop channel in order. -/
def eventInterpret (env : EvEnv) (st : EventInterpreterState) (event : Event) :
    EventInterpreterState × List Command × List Event :=
match event with
| .authenticated =>
  if st.initial then
    ({ st with initial := false }, [],
     [Event.installedPackagesNeeded, Event.systemInfoNeeded, Event.uptaneManifestNeeded])
  else (st, [], [])
| .downloadComplete dl =>
  if st.pacman ≠ PacMan.off then (st, [Command.startInstall dl.update_id], []) else (st, [], [])
| .downloadFailed id reason =>
  (st, [Command.sendInstallReport (InstallResult.into_report ⟨id, InstallCode.generalError, reason⟩)], [])
| .installComplete result =>
  (st, [Command.sendInstallReport result.into_report], [])
| .installFailed result =>
  (st, [Command.sendInstallReport result.into_report], [])
| .installedPackagesNeeded =>
  if st.pacman ≠ PacMan.off then
    match env.pacmanInstalled st.pacman with
    | .ok packages => (st, [Command.sendInstalledPackages packages], [])
    | .error _ => (st, [], [])
  else (st, [], [])
| .installReportSent _ =>
  (st, [], [Event.installedPackagesNeeded])
| .notAuthenticated =>
  (st, [Command.authenticate st.auth], [])
| .systemInfoNeeded =>
  match st.sysinfo with
  | some _ => (st, [Command.sendSystemInfo], [])
  | Option.none => (st, [], [])
| .updatesReceived requests =>
  (st, requests.flatMap (updateRequestCommands env st), [])
| .uptaneInstallComplete manifests =>
  (st, [Command.uptaneSendManifest (some manifests)], [])
| .uptaneInstallFailed manifests =>
  (st, [Command.uptaneSendManifest (some manifests)], [])
| .uptaneManifestNeeded =>
  if st.pacman = PacMan.uptane then (st, [Command.uptaneSendManifest Option.none], []) else (st, [], [])
| .uptaneTargetsUpdated targets =>
  (st, [Command.uptaneStartInstall targets], [])
| _ => (st, [], [])

/-- Per-request branching of the UpdatesReceived rules as the spec words them:
Pending with auto-download enabled starts a download; InFlight with the
package manager Off queues nothing; InFlight with the package already
installed reports an OK install; InFlight otherwise starts a download; every
other status queues nothing. -/
def specUpdateRule (auto_dl : Bool) (pacman : PacMan) (installed : Package → Bool)
    (request : UpdateRequest) : List Command :=
if request.status = RequestStatus.pending ∧ auto_dl = true then
  [Command.startDownload request.requestId]
else if request.status = RequestStatus.inFlight ∧ pacman = PacMan.off then []
else if request.status = RequestStatus.inFlight ∧ installed request.packageId = true then
  [Command.sendInstallReport ⟨⟨request.requestId, InstallCode.ok, "<generated>"⟩⟩]
else if request.status = RequestStatus.inFlight then
  [Command.startDownload request.requestId]
else []

/-- The CommandInterpreter handling modes (sota-client/src/interpreter.rs,
`CommandMode`). The `Services` and `Uptane` values carried by the Rvi and
Uptane modes only matter through the oracle results in `CmdEnv`. -/
inductive CommandMode where
| sota
| rvi
| uptane
deriving DecidableEq, Repr

/-- Oracles for every effectful call made while processing a command: HTTP
exchanges, subprocess output, package-manager calls, the SOTA and Uptane
clients and the RVI remote services. Each field is the result that the
corresponding call would produce during the step being modelled. -/
structure CmdEnv where
  authConfigured : Bool
  oauth2 : Except ErrM AccessToken
  getDirectorRoot : Except ErrM VerifiedM
  getDirectorTargets : Except ErrM VerifiedM
  sotaUpdates : Except ErrM (List UpdateRequest)
  installedPackages : Except ErrM (List Package)
  systemInfoCmd : Option String
  systemInfoOut : Except ErrM String
  sendInstalledPackagesRes : Except ErrM Unit
  sendSystemInfoRes : Except ErrM Unit
  sendInstallReportRes : Except ErrM Unit
  rviInstalledSoftwareRes : Except String String
  rviUpdateReportRes : Except String String
  rviDownloadStartedRes : Except String String
  downloadUpdate : Except ErrM DownloadComplete
  installUpdate : Except ErrM InstallResult
  tlsConfigured : Bool
  uptanePutManifestRes : Except ErrM Unit
  uptaneInstallRes : Except ErrM (List (String × TufSignedM) × Bool)
  uptaneSignedReportRes : Except ErrM TufSignedM
  primaryEcu : String

/-- System information report generation, embedded from
sota-client/src/interpreter.rs lines 300 to 307: a Config error when
device.system_info is unset, otherwise the shell invocation's stdout. -/
def systemInfoReport (env : CmdEnv) : Except ErrM String :=
match env.systemInfoCmd with
| Option.none => .error (ErrM.config ("device.system_info not set"))
| some _ => env.systemInfoOut

/-- Decidable equality of Result values with decidable components. -/
instance {ε α : Type} [DecidableEq ε] [DecidableEq α] : DecidableEq (Except ε α) := fun x y =>
match x, y with
| .ok a, .ok b =>
  if h : a = b then isTrue (by rw [h]) else isFalse (fun hc => by cases hc; exact h rfl)
| .error a, .error b =>
  if h : a = b then isTrue (by rw [h]) else isFalse (fun hc => by cases hc; exact h rfl)
| .ok _, .error _ => isFalse (fun hc => by cases hc)
| .error _, .ok _ => isFalse (fun hc => by cases hc)

/-- How one command handler finishes: a process exit, a panic, or a returned
`Result<Event, Error>`. -/
inductive ProcOut where
| exits (code : Nat)
| panics (msg : String)
| done (res : Except ErrM Event)
deriving DecidableEq, Repr

/-- Result of `process_command`: the intermediate events broadcast through
`etx` while the handler ran, in order, and how the handler finished. -/
structure ProcResult where
  sent : List Event
  out : ProcOut
deriving DecidableEq, Repr

/-- The command dispatch, embedded arm by arm from
sota-client/src/interpreter.rs lines 159 to 297 (`process_command`). The
mutation of the interpreter's own auth and http fields carries no event and is
not modelled. Shutdown terminates the process with exit code 0; the four
trailing arms are `unreachable!` panics. -/
def processCommand (env : CmdEnv) (mode : CommandMode) (cmd : Command) : ProcResult :=
match cmd, mode with
| .authenticate (Auth.credentials _), _ =>
  if env.authConfigured then
    match env.oauth2 with
    | .ok _ => ⟨[], .done (.ok Event.authenticated)⟩
    | .error e => ⟨[], .done (.error e)⟩
  else ⟨[], .panics ("auth config")⟩
| .authenticate _, _ => ⟨[], .done (.ok Event.authenticated)⟩
| .getUpdateRequests, .uptane =>
  match env.getDirectorRoot with
  | .error e => ⟨[], .done (.error e)⟩
  | .ok _ =>
    match env.getDirectorTargets with
    | .error e => ⟨[], .done (.error e)⟩
    | .ok targets =>
      if targets.is_new then ⟨[], .done (.ok (Event.uptaneTargetsUpdated targets))⟩
      else ⟨[], .done (.ok Event.uptaneNoUpdates)⟩
| .getUpdateRequests, _ =>
  match env.sotaUpdates with
  | .error e => ⟨[], .done (.error e)⟩
  | .ok updates =>
    if updates.isEmpty then ⟨[], .done (.ok Event.noUpdateRequests)⟩
    else
      ⟨[], .done (.ok (Event.updatesReceived
        (updates.mergeSort (fun u v => u.installPos ≤ v.installPos))))⟩
| .listInstalledPackages, _ =>
  match env.installedPackages with
  | .error e => ⟨[], .done (.error e)⟩
  | .ok pkgs => ⟨[], .done (.ok (Event.foundInstalledPackages pkgs))⟩
| .listSystemInfo, _ =>
  match systemInfoReport env with
  | .error e => ⟨[], .done (.error e)⟩
  | .ok info => ⟨[], .done (.ok (Event.foundSystemInfo info))⟩
| .sendInstalledPackages _, _ =>
  match env.sendInstalledPackagesRes with
  | .error e => ⟨[], .done (.error e)⟩
  | .ok _ => ⟨[], .done (.ok Event.installedPackagesSent)⟩
| .sendInstalledSoftware _, .rvi =>
  match env.rviInstalledSoftwareRes with
  | .error e => ⟨[], .done (.error (ErrM.rvi e))⟩
  | .ok _ => ⟨[], .done (.ok Event.installedSoftwareSent)⟩
| .sendSystemInfo, _ =>
  match systemInfoReport env with
  | .error e => ⟨[], .done (.error e)⟩
  | .ok _ =>
    match env.sendSystemInfoRes with
    | .error e => ⟨[], .done (.error e)⟩
    | .ok _ => ⟨[], .done (.ok Event.systemInfoSent)⟩
| .sendInstallReport report, .rvi =>
  match env.rviUpdateReportRes with
  | .error e => ⟨[], .done (.error (ErrM.rvi e))⟩
  | .ok _ => ⟨[], .done (.ok (Event.installReportSent report))⟩
| .sendInstallReport report, _ =>
  match env.sendInstallReportRes with
  | .error e => ⟨[], .done (.error e)⟩
  | .ok _ => ⟨[], .done (.ok (Event.installReportSent report))⟩
| .startDownload id, .rvi =>
  match env.rviDownloadStartedRes with
  | .error e => ⟨[], .done (.error (ErrM.rvi e))⟩
  | .ok _ => ⟨[], .done (.ok (Event.downloadingUpdate id))⟩
| .startDownload id, _ =>
  ⟨[Event.downloadingUpdate id],
   .done (.ok (match env.downloadUpdate with
               | .ok dl => Event.downloadComplete dl
               | .error err => Event.downloadFailed id err.describe))⟩
| .startInstall id, .sota =>
  ⟨[Event.installingUpdate id],
   match env.installUpdate with
   | .error e => .done (.error e)
   | .ok result =>
     if result.result_code.is_success then .done (.ok (Event.installComplete result))
     else .done (.ok (Event.installFailed result))⟩
| .shutdown, _ => ⟨[], .exits 0⟩
| .uptaneSendManifest _, .uptane =>
  match env.uptanePutManifestRes with
  | .error e => ⟨[], .done (.error e)⟩
  | .ok _ => ⟨[], .done (.ok Event.uptaneManifestSent)⟩
| .uptaneStartInstall _, .uptane =>
  if env.tlsConfigured then
    match env.uptaneInstallRes with
    | .ok (signed, true) => ⟨[], .done (.ok (Event.uptaneInstallComplete signed))⟩
    | .ok (signed, false) => ⟨[], .done (.ok (Event.uptaneInstallFailed signed))⟩
    | .error _ =>
      match env.uptaneSignedReportRes with
      | .ok report => ⟨[], .done (.ok (Event.uptaneInstallFailed [(env.primaryEcu, report)]))⟩
      | .error e2 => ⟨[], .done (.error e2)⟩
  else ⟨[], .done (.error (ErrM.config ("tls.server required")))⟩
| .sendInstalledSoftware _, _ =>
  ⟨[], .panics ("Command::SendInstalledSoftware expects CommandMode::Rvi")⟩
| .startInstall _, _ => ⟨[], .panics ("Command::StartInstall expects CommandMode::Sota")⟩
| .uptaneSendManifest _, _ => ⟨[], .panics ("Command::UptaneSendManifest expects CommandMode::Uptane")⟩
| .uptaneStartInstall _, _ => ⟨[], .panics ("Command::UptaneStartInstall expects CommandMode::Uptane")⟩

/-- A command paired with the presence of an optional reply channel
(sota-client/src/interpreter.rs, `CommandExec`). -/
structure CommandExec where
  cmd : Command
  etx : Bool
deriving DecidableEq, Repr

/-- How one interpreter step terminates. -/
inductive InterpFate where
| normal
| exits (code : Nat)
| panics (msg : String)
deriving DecidableEq, Repr

/-- Observable outcome of one CommandInterpreter step: the events broadcast
(in order), the event echoed on the reply channel, and the step's fate. -/
structure InterpOut where
  broadcast : List Event
  reply : Option Event
  fate : InterpFate
deriving DecidableEq, Repr

/-- The terminal event computed from the handler result as the spec words it:
the handler's event on success, NotAuthenticated for an HttpAuth error, and
the stringified error otherwise. -/
def terminalEvent : Except ErrM Event → Event
| .ok ev => ev
| .error (ErrM.httpAuth _) => Event.notAuthenticated
| .error err => Event.error err.describe

/-- One CommandInterpreter step, embedded from
sota-client/src/interpreter.rs lines 145 to 156 (`interpret`): the handler
result is mapped to a terminal event, echoed on the reply channel when one is
present, and broadcast after the handler's intermediate events. A handler that
exits or panics broadcasts nothing further. -/
def commandInterpret (env : CmdEnv) (mode : CommandMode) (exec : CommandExec) : InterpOut :=
match processCommand env mode exec.cmd with
| ⟨sent, .exits code⟩ => ⟨sent, Option.none, .exits code⟩
| ⟨sent, .panics msg⟩ => ⟨sent, Option.none, .panics msg⟩
| ⟨sent, .done res⟩ =>
  let ev := match res with
    | .ok e => e
    | .error (ErrM.httpAuth _) => Event.notAuthenticated
    | .error err => Event.error err.describe
  ⟨sent ++ [ev], if exec.etx then some ev else Option.none, .normal⟩

/-- The claim that one step of the CommandInterpreter emits exactly one
terminal event after the handler's intermediate events, echoed on the reply
channel when one is present. -/
def emitsOneTerminal (env : CmdEnv) (mode : CommandMode) (exec : CommandExec) : Prop :=
∃ ev, (commandInterpret env mode exec).broadcast = (processCommand env mode exec.cmd).sent ++ [ev]
  ∧ (exec.etx = true → (commandInterpret env mode exec).reply = some ev)

/-- A concrete oracle environment where every effectful call succeeds with
simple values, used to evaluate the interpreter model on closed inputs. -/
def defaultCmdEnv : CmdEnv where
  authConfigured := true
  oauth2 := .ok ⟨"token", "bearer", 3600, "default"⟩
  getDirectorRoot := .ok ⟨RoleName.root, ⟨RoleName.root, 1, 100, Option.none, Option.none, Option.none, Option.none⟩, 0, 1⟩
  getDirectorTargets := .ok ⟨RoleName.targets, ⟨RoleName.targets, 1, 100, Option.none, Option.none, Option.none, Option.none⟩, 0, 1⟩
  sotaUpdates := .ok []
  installedPackages := .ok []
  systemInfoCmd := some ("system_info.sh")
  systemInfoOut := .ok ("info")
  sendInstalledPackagesRes := .ok ()
  sendSystemInfoRes := .ok ()
  sendInstallReportRes := .ok ()
  rviInstalledSoftwareRes := .ok ("")
  rviUpdateReportRes := .ok ("")
  rviDownloadStartedRes := .ok ("")
  downloadUpdate := .ok ⟨"00000000-0000-0000-0000-000000000000", "/tmp/00000000-0000-0000-0000-000000000000", ""⟩
  installUpdate := .ok ⟨"00000000-0000-0000-0000-000000000000", InstallCode.ok, "stdout: stderr: "⟩
  tlsConfigured := true
  uptanePutManifestRes := .ok ()
  uptaneInstallRes := .ok ([], true)
  uptaneSignedReportRes := .ok ⟨[], "signed"⟩
  primaryEcu := "primary-serial"

/-- Metadata of one image transfer. Modelled from the spec: the images module
is not among the sources; per the spec a transfer stores the image name, the
expected size, the expected chunk count and the expected sha256 checksum, and
is created by `ImageMeta::new(image_name, size, chunkscount, checksum)`. -/
structure ImageMeta where
  image_name : String
  size : Nat
  chunks_count : Nat
  checksum : String
deriving DecidableEq, Repr

/-- State of one in-flight image transfer. Modelled from the spec: the images
module is not among the sources; the writer holds its metadata, the assembled
file contents so far, and the set of chunk indices written (duplicate-free). -/
structure ImageWriter where
  meta : ImageMeta
  file : List Nat
  chunks_written : List Nat
deriving DecidableEq, Repr

/-- A fresh writer for a transfer (`ImageWriter::new`), truncating the image
file to zero length. Modelled from the spec. -/
def ImageWriter.new (meta : ImageMeta) : ImageWriter := ⟨meta, [], []⟩

/-- Chunk size in bytes: the ceiling of size divided by chunk count, as the
spec defines the write offset `index * ceil(size / chunks_count)`. -/
def ImageWriter.chunkSize (w : ImageWriter) : Nat :=
(w.meta.size + w.meta.chunks_count - 1) / w.meta.chunks_count

/-- Writing one indexed chunk (`ImageWriter::write_chunk`). Modelled from the
spec: the index must lie below the chunk count; the bytes are written at
offset index times chunk size and the index is inserted into the set of
written chunks. -/
def ImageWriter.write_chunk (w : ImageWriter) (bytes : List Nat) (index : Nat) :
    Except String ImageWriter :=
if index < w.meta.chunks_count then
  .ok { w with
        file := overlay w.file (index * w.chunkSize) bytes,
        chunks_written := insertSet index w.chunks_written }
else .error ("index " ++ toString index ++ " out of range")

/-- Oracles for the transfer handlers: the SHA-256 digest of a byte sequence
(hex string) and the result of posting a ChunkReceived acknowledgement to the
backend, plus the device id of the remote services record. -/
structure RviEnv where
  sha256 : List Nat → String
  sendChunkReceivedRes : Except String String
  deviceId : String

/-- Verification of an assembled image (`ImageWriter::verify_image`). Modelled
from the spec: all chunks must have been written, the SHA-256 of the assembled
file must equal the stored checksum, and the file length must equal the
expected size. -/
def ImageWriter.verify_image (env : RviEnv) (w : ImageWriter) : Except String Unit :=
if w.chunks_written.length ≠ w.meta.chunks_count then .error ("incomplete transfer")
else if env.sha256 w.file ≠ w.meta.checksum then .error ("checksum mismatch")
else if w.file.length ≠ w.meta.size then .error ("size mismatch")
else .ok ()

/-- The transfer engine state: active transfers and announced image sizes keyed
by update id, plus the images directory. Modelled from the spec (the images
module is not among the sources); maps are association lists. -/
structure Transfers where
  active : List (String × ImageWriter)
  image_sizes : List (String × Nat)
  images_dir : String
deriving DecidableEq, Repr

/-- A ChunkReceived acknowledgement sent to the backend, from
sota-client/src/rvi/json_rpc.rs. -/
structure ChunkReceivedM where
  device : String
  update_id : String
  chunks : List Nat
deriving DecidableEq, Repr

/-- The Chunk message parameters, from sota-client/src/rvi/parameters.rs. -/
structure ChunkParam where
  update_id : String
  bytes : String
  index : Nat
deriving DecidableEq, Repr

/-- The Finish message parameters, from sota-client/src/rvi/parameters.rs. -/
structure FinishParam where
  update_id : String
  signature : String
deriving DecidableEq, Repr

/-- Handling a Chunk message, embedded from
sota-client/src/rvi/parameters.rs lines 73 to 99: look up the transfer, decode
the base64 payload, write the chunk, then acknowledge with the sorted and
deduplicated list of chunk indices written so far. The returned triple is the
updated transfer state, the acknowledgements sent, and the handler result. -/
def chunkHandle (env : RviEnv) (tr : Transfers) (p : ChunkParam) :
    Transfers × List ChunkReceivedM × Except String (Option Event) :=
match assocLookup p.update_id tr.active with
| Option.none => (tr, [], .error ("could not find transfer for update_id " ++ p.update_id))
| some writer =>
  match b64Decode p.bytes with
  | Option.none =>
    (tr, [], .error ("could not decode chunk for index " ++ toString p.index))
  | some chunk =>
    match writer.write_chunk chunk p.index with
    | .error e => (tr, [], .error ("could not write chunk: " ++ e))
    | .ok w2 =>
      let chunks := dedupConsec (List.insertionSort (fun a b => a ≤ b) w2.chunks_written)
      let ack : ChunkReceivedM := ⟨env.deviceId, p.update_id, chunks⟩
      let tr2 := { tr with active := assocUpdate p.update_id w2 tr.active }
      match env.sendChunkReceivedRes with
      | .ok _ => (tr2, [ack], .ok Option.none)
      | .error err => (tr2, [ack], .error ("error sending ChunkReceived: " ++ err))

/-- Handling a Finish message, embedded from
sota-client/src/rvi/parameters.rs lines 108 to 127: an unknown id or a failed
image verification returns an error before the transfer is removed; on success
the transfer is removed and a DownloadComplete event is produced whose image
path joins the images directory and the image name. -/
def finishHandle (env : RviEnv) (tr : Transfers) (p : FinishParam) :
    Transfers × Except String (Option Event) :=
match assocLookup p.update_id tr.active with
| Option.none => (tr, .error ("unknown package: " ++ p.update_id))
| some writer =>
  match writer.verify_image env with
  | .error e => (tr, .error ("could not assemble package: " ++ e))
  | .ok _ =>
    ({ tr with active := assocRemove p.update_id tr.active },
     .ok (some (Event.downloadComplete
       ⟨p.update_id, tr.images_dir ++ "/" ++ writer.meta.image_name, p.signature⟩)))

/-- The error object of a JSON-RPC failure, from
sota-client/src/rvi/json_rpc.rs (`ErrorCode`). -/
structure ErrorCodeM where
  code : Int
  message : String
  data : String
deriving DecidableEq, Repr

/-- A successful JSON-RPC response with an integer result, from
sota-client/src/rvi/json_rpc.rs (`RpcOk<i32>`). -/
structure RpcOkM where
  jsonrpc : String
  id : Nat
  result : Option Int
deriving DecidableEq, Repr

/-- Constructor for a successful response (`RpcOk::new`). -/
def RpcOkM.new (id : Nat) (result : Option Int) : RpcOkM := ⟨"2.0", id, result⟩

/-- A failed JSON-RPC response, from sota-client/src/rvi/json_rpc.rs. -/
structure RpcErrM where
  jsonrpc : String
  id : Nat
  error : ErrorCodeM
deriving DecidableEq, Repr

/-- Failure response with code -32602 (`RpcErr::invalid_params`). -/
def RpcErrM.invalid_params (id : Nat) (data : String) : RpcErrM :=
⟨"2.0", id, ⟨-32602, "Invalid params", data⟩⟩

/-- Failure response with code -32100 (`RpcErr::unspecified`). -/
def RpcErrM.unspecified (id : Nat) (data : String) : RpcErrM :=
⟨"2.0", id, ⟨-32100, "Couldnt handle request", data⟩⟩

/-- An RVI message envelope carrying a parameters array, from
sota-client/src/rvi/services.rs (`RviMessage`). -/
structure RviMessageM (P : Type) where
  service_name : String
  parameters : List P
  timeout : Option Int
deriving DecidableEq, Repr

/-- A JSON-RPC request envelope, from sota-client/src/rvi/json_rpc.rs
(`RpcRequest`). -/
structure RpcRequestM (P : Type) where
  jsonrpc : String
  id : Nat
  method : String
  params : RviMessageM P
deriving DecidableEq, Repr

/-- Handling one RVI service message, embedded from
sota-client/src/rvi/services.rs lines 79 to 88 (`handle_message`): decode the
request (an invalid-params error on failure), index the parameters array at
position zero (a panic when it is empty), delegate to the parameter handler
(an unspecified error on failure) and forward any returned event. The decode
step and the parameter handler are oracles; the result carries the forwarded
events and the JSON-RPC response. -/
def handleMessage {P : Type} (decode : String → Except String (RpcRequestM P))
    (handler : P → Except String (Option Event)) (id : Nat) (msg : String) :
    Outcome (List Event × Except RpcErrM RpcOkM) :=
match decode msg with
| .error err =>
  .returns ([], .error (RpcErrM.invalid_params id ("could not decode message: " ++ err)))
| .ok request =>
  match request.params.parameters with
  | [] => .panics ("index out of bounds: the len is 0 but the index is 0")
  | p :: _ =>
    match handler p with
    | .error err =>
      .returns ([], .error (RpcErrM.unspecified request.id ("could not handle parameters: " ++ err)))
    | .ok ev => .returns (ev.toList, .ok (RpcOkM.new request.id Option.none))

/-- The Uptane service to communicate with, from src/src/uptane.rs lines 16
to 19. -/
inductive Service where
| director
| repo
deriving DecidableEq, Repr

/-- Display of a service (src/src/uptane.rs lines 21 to 28). -/
def Service.display : Service → String
| .director => "director"
| .repo => "repo"

/-- The Verifier state: registered keys and role specs, keyed by keyid and
role name. Modelled from the spec: the verifier module is not among the
sources; versions are tracked inside each role spec. -/
structure Verifier where
  keys : List (String × Key)
  roles : List (RoleName × RoleMeta)
deriving DecidableEq, Repr

/-- Key registration (`Verifier::add_key`). Modelled from the spec: idempotent
insert-or-replace. -/
def Verifier.add_key (v : Verifier) (id : String) (key : Key) : Verifier :=
{ v with keys := assocUpdate id key v.keys }

/-- Role spec registration (`Verifier::add_meta`). Modelled from the spec:
idempotent, replacing any prior spec. -/
def Verifier.add_meta (v : Verifier) (role : RoleName) (meta : RoleMeta) : Verifier :=
{ v with roles := assocUpdate role meta v.roles }

/-- Version bookkeeping (`Verifier::set_version`): records the new version for
the role and returns the previously recorded one. Modelled from the spec. -/
def Verifier.set_version (v : Verifier) (role : RoleName) (newVer : Nat) : Nat × Verifier :=
match assocLookup role v.roles with
| some meta => (meta.version, { v with roles := assocUpdate role { meta with version := newVer } v.roles })
| Option.none => (0, v)

/-- Oracles for the Uptane client: JSON parsing, canonical-JSON encoding,
cryptographic signature checking, the current time and the HTTP fetch of role
metadata from each service. -/
structure UptEnv where
  parseSigned : List Nat → Except ErrM TufSignedM
  parseRole : JsonM → Except ErrM RoleData
  canonical : JsonM → Except ErrM (List Nat)
  sigOk : SignatureM → List Nat → Key → Bool
  now : Int
  httpGet : Service → RoleName → Except ErrM (List Nat)

/-- Signature verification for one role (`Verifier::verify`). Modelled from
the spec: parse the signed value as role data and require the matching role
type; require a non-empty signature list; canonicalize the signed value; count
the distinct keyids that are listed for the role, registered, and whose
signature verifies over the canonical payload; require the count to reach the
role threshold, the expiry to lie in the future and the version not to roll
back; return the new version. -/
def Verifier.verify (env : UptEnv) (v : Verifier) (role : RoleName) (sign : TufSignedM) :
    Except ErrM Nat :=
match env.parseRole sign.signed with
| .error e => .error e
| .ok data =>
  if data._type ≠ role then .error ErrM.uptaneInvalidRole
  else if sign.signatures.isEmpty then .error ErrM.uptaneMissingSignatures
  else
    match assocLookup role v.roles with
    | Option.none => .error ErrM.uptaneUnknownRole
    | some rmeta =>
      match env.canonical sign.signed with
      | .error e => .error e
      | .ok payload =>
        let goodIds := (sign.signatures.filterMap (fun s =>
          if rmeta.keyids.contains s.keyid then
            match assocLookup s.keyid v.keys with
            | some key => if env.sigOk s payload key then some s.keyid else Option.none
            | Option.none => Option.none
          else Option.none)).dedup
        if goodIds.length < rmeta.threshold then .error ErrM.uptaneRoleThreshold
        else if data.expires ≤ env.now then .error ErrM.uptaneExpired
        else if data.version < rmeta.version then .error ErrM.uptaneOldVersion
        else .ok data.version

/-- The Uptane client state needed by the metadata operations: the metadata
cache path, the persistence flag, the verifier and the filesystem, the latter
modelled as a map from paths to byte contents (src/src/uptane.rs, struct
`Uptane`; directory creation is implicit). -/
structure UptaneState where
  metadata_path : String
  persist : Bool
  verifier : Verifier
  fs : List (String × List Nat)
deriving Repr

/-- The cache path `{metadata_path}/{service}/{role}.json` used by
src/src/uptane.rs (`get_json` and `get_root`). -/
def metadataFilePath (st : UptaneState) (service : Service) (role : RoleName) : String :=
st.metadata_path ++ "/" ++ service.display ++ "/" ++ role.lower ++ ".json"

/-- Reading local metadata when the cache file exists, downloading it
otherwise, embedded from src/src/uptane.rs lines 91 to 100 (`get_json`). -/
def getJson (env : UptEnv) (st : UptaneState) (service : Service) (role : RoleName) :
    Except ErrM (List Nat) :=
match assocLookup (metadataFilePath st service role) st.fs with
| some buf => .ok buf
| Option.none => env.httpGet service role

/-- Verifying a metadata buffer, embedded from src/src/uptane.rs lines 103 to
114 (`verify_data`): parse the signed container and its role data, verify with
the verifier, record the new version, and return the verified metadata with
the old and new versions. -/
def verifyData (env : UptEnv) (st : UptaneState) (role : RoleName) (buf : List Nat) :
    Except ErrM (VerifiedM × UptaneState) :=
match env.parseSigned buf with
| .error e => .error e
| .ok sign =>
  match env.parseRole sign.signed with
  | .error e => .error e
  | .ok data =>
    match Verifier.verify env st.verifier role sign with
    | .error e => .error e
    | .ok new_ver =>
      let old := st.verifier.set_version role new_ver
      .ok (⟨role, data, old.1, new_ver⟩, { st with verifier := old.2 })

/-- Fetching and verifying root.json, embedded from src/src/uptane.rs lines
117 to 138 (`get_root`): read or download the buffer, parse it, require the
keys and roles maps (a missing-field error otherwise), register every key and
every role spec with the verifier, verify the buffer against the augmented
verifier, and only on success persist the fetched bytes at
`{metadata_path}/{service}/root.json` when persistence is enabled. -/
def getRoot (env : UptEnv) (st : UptaneState) (service : Service) :
    Except ErrM (VerifiedM × UptaneState) :=
match getJson env st service RoleName.root with
| .error e => .error e
| .ok buf =>
  match env.parseSigned buf with
  | .error e => .error e
  | .ok sign =>
    match env.parseRole sign.signed with
    | .error e => .error e
    | .ok data =>
      match data.keys with
      | Option.none => .error (ErrM.uptaneMissingField ("keys"))
      | some keys =>
        match data.roles with
        | Option.none => .error (ErrM.uptaneMissingField ("roles"))
        | some roles =>
          let v1 := keys.foldl (fun v p => v.add_key p.1 p.2) st.verifier
          let v2 := roles.foldl (fun v p => v.add_meta p.1 p.2) v1
          match verifyData env { st with verifier := v2 } RoleName.root buf with
          | .error e => .error e
          | .ok (verified, st2) =>
            if st2.persist then
              .ok (verified,
                   { st2 with fs := assocUpdate (metadataFilePath st2 service RoleName.root) buf st2.fs })
            else .ok (verified, st2)

/-- A concrete backend environment for evaluating the package-manager model on
closed inputs. -/
def defaultPkgEnv : PkgEnv where
  debInstalledPackages := .ok [⟨"vim", "2.1"⟩]
  rpmInstalledPackages := .ok []
  ostreeInstalledPackages := .ok []
  testInstalledPackages := fun _ => .ok []
  debInstall := fun _ => .ok (InstallCode.ok, "")
  rpmInstall := fun _ => .ok (InstallCode.ok, "")
  ostreeInstall := fun _ _ => .ok (InstallCode.ok, "")
  testInstall := fun _ _ succeeds =>
    if succeeds then .ok (InstallCode.ok, "") else .error (InstallCode.installFailed, "")

/-- A concrete transfer-handler environment for evaluating the transfer model
on closed inputs: the digest oracle answers a fixed string and
acknowledgement sends succeed. -/
def rviEnv0 : RviEnv where
  sha256 := fun _ => "h"
  sendChunkReceivedRes := .ok ("")
  deviceId := "device"

/-- A writer for update id u expecting three bytes in one chunk with checksum
h, with its single chunk already written. -/
def finWriter : ImageWriter := ⟨⟨"u", 3, 1, "h"⟩, [1, 2, 3], [0]⟩

/-- A transfer state with the completed writer for u active. -/
def finState : Transfers := ⟨[("u", finWriter)], [("u", 3)], "/tmp"⟩

/-- A writer for update id x expecting two chunks, none written yet. -/
def finBadWriter : ImageWriter := ⟨⟨"x", 3, 2, "h"⟩, [], []⟩

/-- A transfer state with the incomplete writer for x active. -/
def finBadState : Transfers := ⟨[("x", finBadWriter)], [("x", 3)], "/tmp"⟩

/-- A transfer state with no active transfers. -/
def emptyTransfers : Transfers := ⟨[], [], "/tmp"⟩

/-- A fresh writer for update id u expecting four bytes in two chunks. -/
def chunkWriter : ImageWriter := ⟨⟨"u", 4, 2, "cs"⟩, [], []⟩

/-- A transfer state with the fresh writer for u active. -/
def chunkState : Transfers := ⟨[("u", chunkWriter)], [("u", 4)], "/tmp"⟩

/-- The claim that handling a Chunk message wrote the chunk: after the
handler runs, the transfer still exists and its written-chunk set contains the
message index. -/
def chunkWriteHappens (env : RviEnv) (tr : Transfers) (p : ChunkParam) : Prop :=
∃ w2, assocLookup p.update_id (chunkHandle env tr p).1.active = some w2
  ∧ p.index ∈ w2.chunks_written

/-- A targets map with one entry carrying a sha256 hash but no custom field. -/
def noCustomTargets : List (String × TufMeta) :=
[("/file.img", ⟨1337, [("sha256", "dd250ea9")], Option.none⟩)]

/-- A targets map with one complete entry and one entry without a sha256
hash. -/
def goodTargets : List (String × TufMeta) :=
[("/file.img", ⟨1337, [("sha256", "dd250ea9")], some ⟨"some-ecu-id", Option.none⟩⟩),
 ("/other.img", ⟨42, [("sha512", "ab")], Option.none⟩)]

/-- A decode oracle always producing a well-formed request whose parameters
array is empty. -/
def emptyParamsDecode : String → Except String (RpcRequestM Nat) :=
fun _ => .ok ⟨"2.0", 1, "message", ⟨"/sota/chunk", [], Option.none⟩⟩

/-- A parameter handler producing no event. -/
def nullHandler : Nat → Except String (Option Event) := fun _ => .ok Option.none

/-- Role data of a well-formed root.json: one key and a root role spec with
threshold one. -/
def rootData0 : RoleData :=
⟨RoleName.root, 1, 100,
 some [("kid", ⟨KeyType.rsa, "pub"⟩)],
 some [(RoleName.root, ⟨["kid"], 1, 0⟩)],
 Option.none, Option.none⟩

/-- Root role data whose keys map is absent. -/
def rootDataNoKeys : RoleData :=
⟨RoleName.root, 1, 100, Option.none, some [(RoleName.root, ⟨["kid"], 1, 0⟩)], Option.none, Option.none⟩

/-- Root role data whose roles map is absent. -/
def rootDataNoRoles : RoleData :=
⟨RoleName.root, 1, 100, some [("kid", ⟨KeyType.rsa, "pub"⟩)], Option.none, Option.none, Option.none⟩

/-- A concrete Uptane oracle environment: the director serves a complete
root.json, the repo serves one without a keys map, and the byte buffer [2]
parses to one without a roles map; every signature check succeeds. -/
def uptEnv0 : UptEnv where
  parseSigned := fun buf =>
    .ok ⟨[⟨"kid", SigType.rsaSsaPss, "sig"⟩],
         if buf = [0] then "nokeys" else if buf = [2] then "noroles" else "root"⟩
  parseRole := fun s =>
    if s = "nokeys" then .ok rootDataNoKeys
    else if s = "noroles" then .ok rootDataNoRoles
    else .ok rootData0
  canonical := fun _ => .ok [9]
  sigOk := fun _ _ _ => true
  now := 0
  httpGet := fun service _ =>
    match service with
    | Service.director => .ok [1]
    | Service.repo => .ok [0]

/-- An empty Uptane client state with persistence enabled. -/
def uptState0 : UptaneState := ⟨"/meta", true, ⟨[], []⟩, []⟩

/-- An Uptane client state whose cache already holds a director root.json
parsing to role data without a roles map. -/
def uptStateNoRoles : UptaneState :=
⟨"/meta", true, ⟨[], []⟩, [("/meta/director/root.json", [2])]⟩

/-- C8: the Display and Debug output of every Auth value is one of the four
constant strings, contains neither the client_secret nor the access_token
substring, and two values of the same variant display identically whatever
their secret fields hold. -/
theorem auth_display_reveals_no_secret (a : Auth) (c1 c2 : ClientCredentials)
    (t1 t2 : AccessToken) :
    (a.display = "Auth::None" ∨ a.display = "Auth::Token" ∨
     a.display = "Auth::Certificate" ∨ a.display = "Auth::Credentials")
    ∧ a.debugFmt = a.display
    ∧ ¬ ("client_secret".data <:+: a.display.data)
    ∧ ¬ ("access_token".data <:+: a.display.data)
    ∧ (Auth.credentials c1).display = (Auth.credentials c2).display
    ∧ (Auth.token t1).display = (Auth.token t2).display := by
  cases a <;> refine ⟨by simp [Auth.display], rfl, ?_, ?_, rfl, rfl⟩ <;>
    simp only [Auth.display] <;> decide

/-- C9: every operation of the Off package manager panics with the message
"no package manager" instead of returning an error value, is_installed
included; no other package manager panics in these operations. -/
theorem pacman_off_panics (env : PkgEnv) (pm : PackageManager) (path : String)
    (token : Option AccessToken) (pkg : Package) (h : pm ≠ PackageManager.off) :
    PackageManager.installed_packages env PackageManager.off = .panics ("no package manager")
    ∧ PackageManager.install_package env PackageManager.off path token = .panics ("no package manager")
    ∧ PackageManager.extension PackageManager.off = .panics ("no package manager")
    ∧ PackageManager.is_installed env PackageManager.off pkg = .panics ("no package manager")
    ∧ (PackageManager.installed_packages env pm).panicked = false
    ∧ (PackageManager.install_package env pm path token).panicked = false
    ∧ (PackageManager.extension pm).panicked = false
    ∧ (PackageManager.is_installed env pm pkg).panicked = false := by
  refine ⟨rfl, rfl, rfl, rfl, ?_, ?_, ?_, ?_⟩ <;> cases pm <;>
  first
  | exact absurd rfl h
  | rfl
  | (simp only [PackageManager.is_installed, PackageManager.installed_packages]
     split <;> first | rfl | simp_all)

/-- C9 witness at a concrete non-Off package manager. -/
theorem pacman_off_panics_witness :
    PackageManager.deb ≠ PackageManager.off
    ∧ PackageManager.installed_packages defaultPkgEnv PackageManager.off
        = .panics ("no package manager") :=
⟨by decide,
 (pacman_off_panics defaultPkgEnv PackageManager.deb "/tmp/a.deb" Option.none
   ⟨"vim", "2.1"⟩ (by decide)).1⟩

/-- C10: the RVI message handler inspects only the head of the decoded
parameters array, and a well-formed request whose parameters array is empty
makes the index access panic instead of yielding a JSON-RPC error. -/
theorem handle_message_empty_params (P : Type)
    (decode d1 d2 : String → Except String (RpcRequestM P))
    (handler : P → Except String (Option Event)) (id : Nat) (msg msg2 : String)
    (req req1 req2 : RpcRequestM P)
    (hdec : decode msg = .ok req) (hempty : req.params.parameters = [])
    (h1 : d1 msg2 = .ok req1) (h2 : d2 msg2 = .ok req2)
    (hid : req1.id = req2.id)
    (hhead : req1.params.parameters.head? = req2.params.parameters.head?) :
    handleMessage decode handler id msg
      = .panics ("index out of bounds: the len is 0 but the index is 0")
    ∧ handleMessage d1 handler id msg2 = handleMessage d2 handler id msg2 := by
  constructor
  · simp [handleMessage, hdec, hempty]
  · simp only [handleMessage, h1, h2]
    cases hp1 : req1.params.parameters with
    | nil =>
      rw [hp1] at hhead
      cases hp2 : req2.params.parameters with
      | nil => rfl
      | cons p t => rw [hp2] at hhead; simp at hhead
    | cons p t1 =>
      rw [hp1] at hhead
      cases hp2 : req2.params.parameters with
      | nil => rw [hp2] at hhead; simp at hhead
      | cons p2 t2 =>
        rw [hp2] at hhead
        simp at hhead
        subst hhead
        cases handler p <;> simp [hid]

/-- C10 witness: a concrete decode producing an empty parameters array makes
the handler panic. -/
theorem handle_message_empty_params_witness :
    emptyParamsDecode "msg" = .ok ⟨"2.0", 1, "message", ⟨"/sota/chunk", [], Option.none⟩⟩
    ∧ handleMessage emptyParamsDecode nullHandler 7 "msg"
        = .panics ("index out of bounds: the len is 0 but the index is 0") :=
⟨rfl,
 (handle_message_empty_params Nat emptyParamsDecode emptyParamsDecode emptyParamsDecode
   nullHandler 7 "msg" "msg" ⟨"2.0", 1, "message", ⟨"/sota/chunk", [], Option.none⟩⟩
   ⟨"2.0", 1, "message", ⟨"/sota/chunk", [], Option.none⟩⟩
   ⟨"2.0", 1, "message", ⟨"/sota/chunk", [], Option.none⟩⟩
   rfl rfl rfl rfl rfl rfl).1⟩

/-- C2 counterexample: a targets map whose single entry carries a sha256 hash
but no custom field makes extract_packages panic instead of returning. -/
theorem extract_packages_counterexample :
    ¬ ∃ pkgs, extract_packages noCustomTargets "http://treehub" = Outcome.returns pkgs := by
  intro ⟨pkgs, hp⟩
  have hc : extract_packages noCustomTargets "http://treehub"
      = Outcome.panics ("no custom field") := rfl
  rw [hc] at hp
  cases hp

/-- C2 amended: on every targets map in which each entry carrying a sha256
hash also carries a custom field, extract_packages returns normally, emitting
for each such entry one OstreePackage holding the ecuIdentifier, the refname,
the sha256 hash as commit and the treehub URL, and skipping (only logging)
each entry that lacks a sha256 hash; an entry with a sha256 hash but no custom
field instead panics. -/
theorem extract_packages_amended (targets : List (String × TufMeta)) (treehub : String)
    (h : ∀ refname meta, (refname, meta) ∈ targets →
      assocLookup ("sha256") meta.hashes ≠ Option.none → meta.custom ≠ Option.none) :
    extract_packages targets treehub = Outcome.returns (targets.filterMap (fun entry =>
      match assocLookup ("sha256") entry.2.hashes, entry.2.custom with
      | some commit, some custom =>
        some (OstreePackage.new custom.ecuIdentifier entry.1 commit ("") treehub)
      | _, _ => Option.none)) := by
  induction targets with
  | nil => rfl
  | cons hd tl ih =>
    obtain ⟨refname, meta⟩ := hd
    have htl := ih (fun r m hm hs => h r m (List.mem_cons_of_mem _ hm) hs)
    cases hsha : assocLookup ("sha256") meta.hashes with
    | none => simp [extract_packages, hsha, htl]
    | some commit =>
      cases hcust : meta.custom with
      | none =>
        exact absurd hcust (h refname meta (List.mem_cons_self _ _) (by rw [hsha]; simp))
      | some custom => simp [extract_packages, hsha, hcust, htl]

/-- C2 witness: a concrete map with one complete entry and one entry lacking
a sha256 hash extracts exactly one descriptor. -/
theorem extract_packages_amended_witness :
    extract_packages goodTargets "http://treehub"
      = Outcome.returns [OstreePackage.new "some-ecu-id" "/file.img" "dd250ea9" ("") "http://treehub"] := by
  have h := extract_packages_amended goodTargets "http://treehub" (by
    intro refname meta hm hs
    simp only [goodTargets, List.mem_cons, List.mem_singleton] at hm
    rcases hm with h1 | h2 | h3
    · rw [(Prod.mk.injEq _ _ _ _).mp h1 |>.2]; simp
    · exact absurd (by rw [(Prod.mk.injEq _ _ _ _).mp h2 |>.2]; rfl) hs
    · cases h3)
  rw [h]
  rfl

/-- C6: for each update request in an UpdatesReceived event, processed in list
order, the EventInterpreter queues commands exactly by the claimed rule:
Pending with auto-download enabled starts a download; InFlight with the
package manager Off queues nothing; InFlight with the package already
installed sends an OK install report; InFlight otherwise starts a download;
every other status queues nothing. The state is unchanged and no events are
re-injected. -/
theorem updates_received_commands (env : EvEnv) (st : EventInterpreterState)
    (requests : List UpdateRequest) :
    eventInterpret env st (Event.updatesReceived requests)
      = (st, requests.flatMap
          (specUpdateRule st.auto_dl st.pacman (env.isInstalled st.pacman)), []) := by
  simp only [eventInterpret, Prod.mk.injEq, true_and, and_true]
  congr 1
  funext request
  simp only [updateRequestCommands, specUpdateRule]
  cases hs : request.status <;> simp [InstallResult.into_report]

/-- C1 counterexample: processing Shutdown exits the process without emitting
any terminal event on the broadcast channel or the reply channel, so the
contract does not hold for every Command. -/
theorem shutdown_emits_no_terminal :
    ¬ emitsOneTerminal defaultCmdEnv CommandMode.sota ⟨Command.shutdown, true⟩ := by
  intro ⟨ev, hb, _⟩
  have hc : commandInterpret defaultCmdEnv CommandMode.sota ⟨Command.shutdown, true⟩
      = ⟨[], Option.none, InterpFate.exits 0⟩ := rfl
  have hp : processCommand defaultCmdEnv CommandMode.sota Command.shutdown
      = ⟨[], ProcOut.exits 0⟩ := rfl
  rw [hc, hp] at hb
  simp at hb

/-- C1 amended: for every CommandExec whose handler returns (that is, neither
exits the process as Shutdown does, nor panics as a mode-mismatched command
does), exactly one terminal event is appended to the broadcast channel after
the handler's intermediate events and echoed on the reply channel when one is
present: the handler's event on success, NotAuthenticated when the handler
fails with an HttpAuth error, Event::Error(stringified error) for every other
failure. -/
theorem command_emits_one_terminal (env : CmdEnv) (mode : CommandMode) (exec : CommandExec)
    (r : Except ErrM Event) (e0 : Event) (s0 : String) (err0 : ErrM)
    (hdone : (processCommand env mode exec.cmd).out = ProcOut.done r)
    (hna : err0.isHttpAuth = false) :
    (commandInterpret env mode exec).broadcast
      = (processCommand env mode exec.cmd).sent ++ [terminalEvent r]
    ∧ (commandInterpret env mode exec).reply
      = (if exec.etx then some (terminalEvent r) else Option.none)
    ∧ (commandInterpret env mode exec).fate = InterpFate.normal
    ∧ terminalEvent (.ok e0) = e0
    ∧ terminalEvent (.error (ErrM.httpAuth s0)) = Event.notAuthenticated
    ∧ terminalEvent (.error err0) = Event.error err0.describe := by
  have hterm : ∀ res : Except ErrM Event,
      (match res with
       | .ok e => e
       | .error (ErrM.httpAuth _) => Event.notAuthenticated
       | .error err => Event.error err.describe) = terminalEvent res := by
    intro res; rfl
  refine ⟨?_, ?_, ?_, rfl, rfl, ?_⟩
  · rcases hP : processCommand env mode exec.cmd with ⟨sent, out⟩
    rw [hP] at hdone
    simp only at hdone
    subst hdone
    simp [commandInterpret, hP, hterm]
  · rcases hP : processCommand env mode exec.cmd with ⟨sent, out⟩
    rw [hP] at hdone
    simp only at hdone
    subst hdone
    simp [commandInterpret, hP, hterm]
  · rcases hP : processCommand env mode exec.cmd with ⟨sent, out⟩
    rw [hP] at hdone
    simp only at hdone
    subst hdone
    simp [commandInterpret, hP]
  · cases err0 <;> simp_all [terminalEvent, ErrM.isHttpAuth]

/-- C1 witness at a concrete returning command. -/
theorem command_emits_one_terminal_witness :
    (processCommand defaultCmdEnv CommandMode.sota Command.listInstalledPackages).out
      = ProcOut.done (.ok (Event.foundInstalledPackages []))
    ∧ (commandInterpret defaultCmdEnv CommandMode.sota ⟨Command.listInstalledPackages, true⟩).broadcast
      = (processCommand defaultCmdEnv CommandMode.sota Command.listInstalledPackages).sent
        ++ [terminalEvent (.ok (Event.foundInstalledPackages []))] :=
⟨rfl,
 (command_emits_one_terminal defaultCmdEnv CommandMode.sota ⟨Command.listInstalledPackages, true⟩
   (.ok (Event.foundInstalledPackages [])) Event.authenticated "resp" (ErrM.client ("x"))
   rfl rfl).1⟩

/-- C7: in every non-RVI mode, StartDownload(id) broadcasts the intermediate
DownloadingUpdate(id) strictly before its terminal event; the terminal event
is DownloadComplete on download success and DownloadFailed(id, reason) on
download failure, and is never Event::Error. -/
theorem start_download_order (env : CmdEnv) (id : String) (mode : CommandMode) (s : String)
    (h : mode ≠ CommandMode.rvi) :
    (processCommand env mode (Command.startDownload id)).sent = [Event.downloadingUpdate id]
    ∧ (processCommand env mode (Command.startDownload id)).out
      = ProcOut.done (.ok (match env.downloadUpdate with
          | .ok dl => Event.downloadComplete dl
          | .error err => Event.downloadFailed id err.describe))
    ∧ (commandInterpret env mode ⟨Command.startDownload id, false⟩).broadcast
      = [Event.downloadingUpdate id,
         match env.downloadUpdate with
         | .ok dl => Event.downloadComplete dl
         | .error err => Event.downloadFailed id err.describe]
    ∧ (match env.downloadUpdate with
       | .ok dl => Event.downloadComplete dl
       | .error err => Event.downloadFailed id err.describe) ≠ Event.error s := by
  cases mode
  case rvi => exact absurd rfl h
  all_goals
    cases hdl : env.downloadUpdate <;>
      simp [processCommand, commandInterpret, hdl]

/-- C7 witness in Sota mode with the concrete environment. -/
theorem start_download_order_witness :
    CommandMode.sota ≠ CommandMode.rvi
    ∧ (commandInterpret defaultCmdEnv CommandMode.sota
        ⟨Command.startDownload "00000000-0000-0000-0000-000000000000", false⟩).broadcast
      = [Event.downloadingUpdate "00000000-0000-0000-0000-000000000000",
         match defaultCmdEnv.downloadUpdate with
         | .ok dl => Event.downloadComplete dl
         | .error err => Event.downloadFailed "00000000-0000-0000-0000-000000000000" err.describe] :=
⟨by decide,
 (start_download_order defaultCmdEnv "00000000-0000-0000-0000-000000000000"
   CommandMode.sota "boom" (by decide)).2.2.1⟩

/-- Membership in a set-style insertion. -/
theorem insertSet_mem (x i : Nat) (l : List Nat) : i ∈ insertSet x l ↔ i = x ∨ i ∈ l := by
  unfold insertSet
  split
  · constructor
    · exact fun hm => Or.inr hm
    · rintro (rfl | hm)
      · assumption
      · assumption
  · simp

/-- Set-style insertion preserves freedom from duplicates. -/
theorem insertSet_nodup (x : Nat) (l : List Nat) (h : l.Nodup) : (insertSet x l).Nodup := by
  unfold insertSet
  split
  · exact h
  · exact List.nodup_cons.mpr ⟨by assumption, h⟩

/-- Adjacent deduplication leaves a duplicate-free list unchanged. -/
theorem dedupConsec_eq_of_nodup (l : List Nat) (h : l.Nodup) : dedupConsec l = l := by
  induction l with
  | nil => rfl
  | cons x tl ih =>
    cases tl with
    | nil => rfl
    | cons y rest =>
      have hx : x ≠ y := by
        intro hxy
        subst hxy
        exact (List.nodup_cons.mp h).1 (List.mem_cons_self _ _)
      have ht := ih (List.nodup_cons.mp h).2
      simp only [dedupConsec, if_neg hx]
      rw [ht]

/-- C3: handling Finish{id, signature} with an active transfer whose image
verification succeeds removes the transfer from the active map and produces
DownloadComplete with update_image joining the images directory and the id;
verification succeeds exactly when all chunks are written, the SHA-256 of the
assembled file equals the stored checksum and its length equals the expected
size; an unknown id or a failed verification returns an error and leaves the
active map untouched. -/
theorem finish_transfer (env : RviEnv) (tr tr2 tr3 : Transfers) (p q s : FinishParam)
    (w w3 : ImageWriter) (msg : String)
    (h1 : assocLookup p.update_id tr.active = some w)
    (h2 : w.verify_image env = .ok ())
    (h3 : w.meta.image_name = p.update_id)
    (h4 : assocLookup q.update_id tr2.active = Option.none)
    (h5 : assocLookup s.update_id tr3.active = some w3)
    (h6 : w3.verify_image env = .error msg) :
    finishHandle env tr p
      = ({ tr with active := assocRemove p.update_id tr.active },
         .ok (some (Event.downloadComplete
           ⟨p.update_id, tr.images_dir ++ "/" ++ p.update_id, p.signature⟩)))
    ∧ (w.chunks_written.length = w.meta.chunks_count
       ∧ env.sha256 w.file = w.meta.checksum
       ∧ w.file.length = w.meta.size)
    ∧ finishHandle env tr2 q = (tr2, .error ("unknown package: " ++ q.update_id))
    ∧ finishHandle env tr3 s = (tr3, .error ("could not assemble package: " ++ msg)) := by
  refine ⟨?_, ?_, ?_, ?_⟩
  · simp [finishHandle, h1, h2, h3]
  · unfold ImageWriter.verify_image at h2
    split_ifs at h2 with hA hB hC
    exact ⟨not_ne_iff.mp hA, not_ne_iff.mp hB, not_ne_iff.mp hC⟩
  · simp [finishHandle, h4]
  · simp [finishHandle, h5, h6]

/-- C3 witness: a completed concrete transfer finishes with removal and a
DownloadComplete event; an unknown id and an incomplete transfer error out. -/
theorem finish_transfer_witness :
    assocLookup "u" finState.active = some finWriter
    ∧ finWriter.verify_image rviEnv0 = .ok ()
    ∧ finishHandle rviEnv0 finState ⟨"u", "sig"⟩
      = ({ finState with active := assocRemove "u" finState.active },
         .ok (some (Event.downloadComplete ⟨"u", "/tmp" ++ "/" ++ "u", "sig"⟩)))
    ∧ finishHandle rviEnv0 emptyTransfers ⟨"v", "sig"⟩
      = (emptyTransfers, .error ("unknown package: " ++ "v")) := by
  have h := finish_transfer rviEnv0 finState emptyTransfers finBadState
    ⟨"u", "sig"⟩ ⟨"v", "sig"⟩ ⟨"x", "sig"⟩ finWriter finBadWriter "incomplete transfer"
    rfl rfl rfl rfl rfl rfl
  exact ⟨rfl, rfl, h.1, h.2.2.1⟩

/-- C4 counterexample: with an active transfer present but an undecodable
base64 payload, the Chunk handler writes nothing and records no index, so the
claimed unconditional success path fails. -/
theorem chunk_handle_counterexample :
    assocLookup "u" chunkState.active ≠ Option.none
    ∧ ¬ chunkWriteHappens rviEnv0 chunkState ⟨"u", "!!!!", 0⟩ := by
  constructor
  · intro hc
    have : assocLookup "u" chunkState.active = some chunkWriter := rfl
    rw [this] at hc
    cases hc
  · intro ⟨w2, hw, hmem⟩
    have hc : chunkHandle rviEnv0 chunkState ⟨"u", "!!!!", 0⟩
        = (chunkState, [], .error ("could not decode chunk for index 0")) := rfl
    rw [hc] at hw
    have hl : assocLookup ("u") chunkState.active = some chunkWriter := rfl
    rw [hl] at hw
    cases hw
    cases hmem

/-- C4 amended: when no active transfer exists for the id the Chunk handler
fails and writes nothing; when one exists and the base64 payload decodes and
the index lies below the chunk count, the decoded bytes are written at offset
index times ceil(size / chunks_count), the index is inserted into the
written-chunk set, and the acknowledgement sent to the backend lists exactly
the chunk indices written so far, sorted ascending without duplicates. -/
theorem chunk_handle_writes (env : RviEnv) (tr tr4 : Transfers) (p q : ChunkParam)
    (w : ImageWriter) (chunk : List Nat)
    (h1 : assocLookup p.update_id tr.active = some w)
    (h2 : b64Decode p.bytes = some chunk)
    (h3 : p.index < w.meta.chunks_count)
    (h4 : w.chunks_written.Nodup)
    (h5 : assocLookup q.update_id tr4.active = Option.none) :
    chunkHandle env tr4 q
      = (tr4, [], .error ("could not find transfer for update_id " ++ q.update_id))
    ∧ chunkHandle env tr p
      = (Transfers.mk
           (assocUpdate p.update_id
             (ImageWriter.mk w.meta (overlay w.file (p.index * w.chunkSize) chunk)
               (insertSet p.index w.chunks_written)) tr.active)
           tr.image_sizes tr.images_dir,
         [ChunkReceivedM.mk env.deviceId p.update_id
           (List.insertionSort (fun a b => a ≤ b) (insertSet p.index w.chunks_written))],
         match env.sendChunkReceivedRes with
         | .ok _ => .ok Option.none
         | .error err => .error ("error sending ChunkReceived: " ++ err))
    ∧ (List.insertionSort (fun a b => a ≤ b) (insertSet p.index w.chunks_written)).Sorted
        (fun a b => a ≤ b)
    ∧ (List.insertionSort (fun a b => a ≤ b) (insertSet p.index w.chunks_written)).Nodup
    ∧ ∀ i, i ∈ List.insertionSort (fun a b => a ≤ b) (insertSet p.index w.chunks_written)
        ↔ i = p.index ∨ i ∈ w.chunks_written := by
  have hnd : (insertSet p.index w.chunks_written).Nodup := insertSet_nodup _ _ h4
  have hperm := List.perm_insertionSort (fun a b : Nat => a ≤ b) (insertSet p.index w.chunks_written)
  have hsortnd : (List.insertionSort (fun a b => a ≤ b) (insertSet p.index w.chunks_written)).Nodup :=
    hperm.nodup_iff.mpr hnd
  refine ⟨?_, ?_, ?_, hsortnd, ?_⟩
  · simp [chunkHandle, h5]
  · simp only [chunkHandle, h1, h2, ImageWriter.write_chunk, if_pos h3]
    rw [dedupConsec_eq_of_nodup _ hsortnd]
    cases env.sendChunkReceivedRes <;> rfl
  · exact List.sorted_insertionSort _ _
  · intro i
    rw [hperm.mem_iff]
    exact insertSet_mem _ _ _

/-- C4 witness: a concrete valid chunk is written at its offset and
acknowledged with the singleton index list. -/
theorem chunk_handle_writes_witness :
    b64Decode "AAAA" = some [0, 0, 0]
    ∧ chunkHandle rviEnv0 chunkState ⟨"u", "AAAA", 0⟩
      = (Transfers.mk
           (assocUpdate "u"
             (ImageWriter.mk chunkWriter.meta
               (overlay chunkWriter.file (0 * chunkWriter.chunkSize) [0, 0, 0])
               (insertSet 0 chunkWriter.chunks_written)) chunkState.active)
           chunkState.image_sizes chunkState.images_dir,
         [ChunkReceivedM.mk rviEnv0.deviceId "u"
           (List.insertionSort (fun a b => a ≤ b) (insertSet 0 chunkWriter.chunks_written))],
         match rviEnv0.sendChunkReceivedRes with
         | .ok _ => .ok Option.none
         | .error err => .error ("error sending ChunkReceived: " ++ err)) := by
  have h := chunk_handle_writes rviEnv0 chunkState emptyTransfers
    ⟨"u", "AAAA", 0⟩ ⟨"v", "AAAA", 0⟩ chunkWriter [0, 0, 0]
    rfl rfl (by decide) (by decide) rfl
  exact ⟨rfl, h.2.1⟩

/-- C5: get_root fails with a missing-field error when the parsed roles data
lacks its keys map or its roles map; otherwise it registers every key and
every role spec with the verifier and only then verifies the fetched blob
against that augmented verifier, and only after verification succeeds, when
persistence is enabled, writes the fetched bytes into
metadata_path/service/root.json. -/
theorem get_root_registers_before_verifying
    (env : UptEnv) (st stA stB : UptaneState) (service svA svB : Service)
    (buf bufA bufB : List Nat) (sign signA signB : TufSignedM) (data dataA dataB : RoleData)
    (keys keysB : List (String × Key)) (roles : List (RoleName × RoleMeta))
    (h1 : getJson env st service RoleName.root = .ok buf)
    (h2 : env.parseSigned buf = .ok sign)
    (h3 : env.parseRole sign.signed = .ok data)
    (h4 : data.keys = some keys)
    (h5 : data.roles = some roles)
    (hA1 : getJson env stA svA RoleName.root = .ok bufA)
    (hA2 : env.parseSigned bufA = .ok signA)
    (hA3 : env.parseRole signA.signed = .ok dataA)
    (hA4 : dataA.keys = Option.none)
    (hB1 : getJson env stB svB RoleName.root = .ok bufB)
    (hB2 : env.parseSigned bufB = .ok signB)
    (hB3 : env.parseRole signB.signed = .ok dataB)
    (hB4 : dataB.keys = some keysB)
    (hB5 : dataB.roles = Option.none) :
    getRoot env stA svA = .error (ErrM.uptaneMissingField ("keys"))
    ∧ getRoot env stB svB = .error (ErrM.uptaneMissingField ("roles"))
    ∧ getRoot env st service =
        (match verifyData env
            (UptaneState.mk st.metadata_path st.persist
              (roles.foldl (fun v pr => v.add_meta pr.1 pr.2)
                (keys.foldl (fun v pk => v.add_key pk.1 pk.2) st.verifier))
              st.fs)
            RoleName.root buf with
         | .error e => .error e
         | .ok (verified, st2) =>
           if st2.persist then
             .ok (verified,
                  UptaneState.mk st2.metadata_path st2.persist st2.verifier
                    (assocUpdate (metadataFilePath st2 service RoleName.root) buf st2.fs))
           else .ok (verified, st2)) := by
  refine ⟨?_, ?_, ?_⟩
  · simp [getRoot, hA1, hA2, hA3, hA4]
  · simp [getRoot, hB1, hB2, hB3, hB4, hB5]
  · simp only [getRoot, h1, h2, h3, h4, h5]

/-- C5 witness: a missing keys map on the repo service yields the
missing-field error, and the director flow verifies with the augmented
verifier and persists the buffer. -/
theorem get_root_registers_before_verifying_witness :
    rootDataNoKeys.keys = Option.none
    ∧ getRoot uptEnv0 uptState0 Service.repo = .error (ErrM.uptaneMissingField ("keys")) := by
  have h := get_root_registers_before_verifying uptEnv0 uptState0 uptState0 uptStateNoRoles
    Service.director Service.repo Service.director
    [1] [0] [2]
    ⟨[⟨"kid", SigType.rsaSsaPss, "sig"⟩], "root"⟩
    ⟨[⟨"kid", SigType.rsaSsaPss, "sig"⟩], "nokeys"⟩
    ⟨[⟨"kid", SigType.rsaSsaPss, "sig"⟩], "noroles"⟩
    rootData0 rootDataNoKeys rootDataNoRoles
    [("kid", ⟨KeyType.rsa, "pub"⟩)] [("kid", ⟨KeyType.rsa, "pub"⟩)]
    [(RoleName.root, ⟨["kid"], 1, 0⟩)]
    rfl rfl rfl rfl rfl rfl rfl rfl rfl rfl rfl rfl rfl rfl
  exact ⟨rfl, h.1⟩

end RviSota
